import Mathlib

/-!
Shallow embedding of the sandbox executor `run_python_sandbox` from
`super_chatgpt.py`, together with theorems settling the specification
claims about it.

The Python function is effectful: it writes a temporary file, spawns a
child process, waits with a timeout, kills on timeout, and removes the
temporary file in a `finally` block.  We embed it as a pure function from
an environment `Env` — an oracle fixing the outcome of every external
interaction (does `import resource` succeed, does `Popen` raise, does the
child exit within the deadline, does `os.remove` fail) — to a `SandboxRun`
record holding both the Python-level outcome (returned dict or propagated
exception) and the trace of effects the code performed.
-/

namespace SuperChatGPT

/-- A Python value as it appears in the result dictionary. -/
inductive PyValue
  | str (s : String)
  | int (n : Int)
  deriving DecidableEq, Repr

/-- A Python dictionary with string keys, as an association list. -/
abbrev PyDict := List (String × PyValue)

/-- Key lookup in a result dictionary. -/
def PyDict.lookup (d : PyDict) (k : String) : Option PyValue :=
  (d.find? (fun p => p.1 == k)).map Prod.snd

/-- Key-presence test for a result dictionary. -/
def PyDict.hasKey (d : PyDict) (k : String) : Bool :=
  (d.find? (fun p => p.1 == k)).isSome

/-- The resource kinds the code limits: `resource.RLIMIT_CPU` and
`resource.RLIMIT_AS`. -/
inductive RLimitKind
  | cpu
  | addressSpace
  deriving DecidableEq, Repr

/-- One `resource.setrlimit(kind, (soft, hard))` call. -/
structure RLimitCall where
  kind : RLimitKind
  soft : Nat
  hard : Nat
  deriving DecidableEq, Repr

/-- The `_limit` closure from `run_python_sandbox`, as the sequence of
`setrlimit` calls it performs:
`resource.setrlimit(resource.RLIMIT_CPU, (2, 2))` and
`resource.setrlimit(resource.RLIMIT_AS, (200*1024*1024, 200*1024*1024))`. -/
def _limit : List RLimitCall :=
  [ { kind := RLimitKind.cpu, soft := 2, hard := 2 },
    { kind := RLimitKind.addressSpace,
      soft := 200 * 1024 * 1024, hard := 200 * 1024 * 1024 } ]

/-- Destination of a child output stream in the `Popen` call:
`subprocess.PIPE` (a dedicated pipe) or `subprocess.STDOUT`
(merged into stdout) or inherited from the parent. -/
inductive StreamDest
  | pipe
  | toStdout
  | inherit
  deriving DecidableEq, Repr

/-- The `subprocess.Popen` invocation: the argument vector, where each
output stream goes, and the resource-limit calls installed as
`preexec_fn` (run in the child between `fork` and `exec`). -/
structure PopenCall where
  cmd : List String
  stdoutDest : StreamDest
  stderrDest : StreamDest
  preexecLimits : Option (List RLimitCall)
  deriving DecidableEq, Repr

/-- Semantics of `preexec_fn`: the resource-limit calls performed inside
the child process, after the fork and before the interpreter starts
executing the user code.  `none` (no `preexec_fn`) performs no calls. -/
def PopenCall.childLimitsBeforeExec (p : PopenCall) : List RLimitCall :=
  p.preexecLimits.getD []

/-- What the child did when `proc.communicate(timeout=...)` was called. -/
structure ChildExit where
  returncode : Int
  stdout : String
  stderr : String
  deriving DecidableEq, Repr

/-- Oracle for the `communicate` call: either the child exited within the
deadline with the given exit status and streams, or the wall-clock timeout
elapsed first (`subprocess.TimeoutExpired`); in the latter case `bufOut`
and `bufErr` are whatever the child had written to its pipes so far. -/
inductive CommOutcome
  | done (e : ChildExit)
  | timedOut (bufOut bufErr : String)
  deriving DecidableEq, Repr

/-- Oracle for all external interactions of one `run_python_sandbox` call.
`sysExecutable` is the value of `sys.executable` in the parent: the
resolved filesystem path of the interpreter binary currently running the
executor (not a name to be searched on `PATH`).  `tmpPath` is the unique
name `tempfile.NamedTemporaryFile` picked.  `resourceImportOk` is whether
`import resource` succeeds on this platform.  `spawnError` is `some msg`
when `subprocess.Popen` raises `OSError(msg)` (executable missing,
permission denied).  `removeFails` is whether `os.remove` raises. -/
structure Env where
  sysExecutable : String
  tmpPath : String
  resourceImportOk : Bool
  spawnError : Option String
  comm : CommOutcome
  removeFails : Bool
  deriving DecidableEq, Repr

/-- How the Python call ends: a returned dictionary, or an exception
propagating to the caller. -/
inductive PyOutcome
  | ret (d : PyDict)
  | raise (e : String)
  deriving DecidableEq, Repr

/-- The result of one `run_python_sandbox` call: its Python-level outcome
plus the trace of effects performed. -/
structure SandboxRun where
  /-- Returned dict, or the exception that propagated. -/
  outcome : PyOutcome
  /-- Text written into the temporary file (`tf.write(code)`). -/
  tmpWritten : String
  /-- The attempted `subprocess.Popen` invocation. -/
  popenAttempt : PopenCall
  /-- Whether `Popen` returned a process handle (did not raise). -/
  spawnOk : Bool
  /-- How many times a spawn was attempted during the call. -/
  spawnAttempts : Nat
  /-- The `timeout=` argument passed to `communicate`, if reached. -/
  commTimeout : Option Nat
  /-- Whether `communicate` returned normally (child exited, streams
  drained, child reaped). -/
  commReturnedNormally : Bool
  /-- Whether `proc.kill()` was called. -/
  killSent : Bool
  /-- Whether any blocking wait (`proc.wait()` or a second
  `communicate`) was performed after `proc.kill()`. -/
  waitedAfterKill : Bool
  /-- Whether `os.remove(tmp_path)` was attempted before returning. -/
  removeAttempted : Bool
  /-- Whether the temporary file still exists after the call returns. -/
  tmpFileExistsAfter : Bool
  /-- `setrlimit` calls performed in the parent process (not the child). -/
  parentLimitCalls : List RLimitCall
  /-- Log messages emitted during the call. -/
  logs : List String
  deriving DecidableEq, Repr

/-- A spawned child is known to have terminated when the call returns only
if the parent completed a blocking wait on it: either `communicate`
returned normally, or an explicit wait was performed after a kill.
Sending a signal alone gives no such confirmation (the child dies
asynchronously and is left unreaped). -/
def SandboxRun.childConfirmedTerminated (r : SandboxRun) : Bool :=
  r.commReturnedNormally || r.waitedAfterKill

/-- Shallow embedding of `run_python_sandbox(code, timeout=4)` from
`super_chatgpt.py`.  Control flow of the source:

1. write `code` to a fresh temporary file `tmp_path`;
2. `python_cmd = [sys.executable, "-I", tmp_path]`;
3. `preexec_fn = _limit` if `import resource` succeeds, else `None`
   (silently — the `except` body only assigns `None`);
4. `proc = subprocess.Popen(python_cmd, stdout=PIPE, stderr=PIPE,
   text=True, preexec_fn=preexec_fn)`; an `OSError` here matches no
   `except` clause (only `subprocess.TimeoutExpired` is caught), so after
   the `finally` block it propagates to the caller;
5. `stdout, stderr = proc.communicate(timeout=timeout)`; on normal return
   the call returns
   `{"returncode": proc.returncode, "stdout": stdout, "stderr": stderr}`;
6. on `subprocess.TimeoutExpired`: `proc.kill()` (no wait afterwards) and
   return `{"error": "timeout", "stdout": "", "stderr": "Execution timed out"}`;
7. `finally`: `os.remove(tmp_path)` with any exception swallowed. -/
def run_python_sandbox (env : Env) (code : String) (timeout : Nat) : SandboxRun :=
  let tmp_path := env.tmpPath
  let python_cmd := [env.sysExecutable, "-I", tmp_path]
  let preexec_fn : Option (List RLimitCall) :=
    if env.resourceImportOk then some _limit else none
  let popen : PopenCall :=
    { cmd := python_cmd
      stdoutDest := StreamDest.pipe
      stderrDest := StreamDest.pipe
      preexecLimits := preexec_fn }
  match env.spawnError with
  | some err =>
      { outcome := PyOutcome.raise err
        tmpWritten := code
        popenAttempt := popen
        spawnOk := false
        spawnAttempts := 1
        commTimeout := none
        commReturnedNormally := false
        killSent := false
        waitedAfterKill := false
        removeAttempted := true
        tmpFileExistsAfter := env.removeFails
        parentLimitCalls := []
        logs := [] }
  | none =>
      match env.comm with
      | CommOutcome.done e =>
          { outcome := PyOutcome.ret
              [("returncode", PyValue.int e.returncode),
               ("stdout", PyValue.str e.stdout),
               ("stderr", PyValue.str e.stderr)]
            tmpWritten := code
            popenAttempt := popen
            spawnOk := true
            spawnAttempts := 1
            commTimeout := some timeout
            commReturnedNormally := true
            killSent := false
            waitedAfterKill := false
            removeAttempted := true
            tmpFileExistsAfter := env.removeFails
            parentLimitCalls := []
            logs := [] }
      | CommOutcome.timedOut _ _ =>
          { outcome := PyOutcome.ret
              [("error", PyValue.str "timeout"),
               ("stdout", PyValue.str ""),
               ("stderr", PyValue.str "Execution timed out")]
            tmpWritten := code
            popenAttempt := popen
            spawnOk := true
            spawnAttempts := 1
            commTimeout := some timeout
            commReturnedNormally := false
            killSent := true
            waitedAfterKill := false
            removeAttempted := true
            tmpFileExistsAfter := env.removeFails
            parentLimitCalls := []
            logs := [] }

/-- Whether a `PyOutcome` is a returned dictionary (as opposed to a
propagated exception). -/
def PyOutcome.isRet : PyOutcome → Bool
  | PyOutcome.ret _ => true
  | PyOutcome.raise _ => false

/-! Concrete environments used by witnesses and counterexamples. -/

/-- A run whose child exits normally with code 0. -/
def envDone : Env :=
  { sysExecutable := "/usr/bin/python3"
    tmpPath := "/tmp/tmp7f3a.py"
    resourceImportOk := true
    spawnError := none
    comm := CommOutcome.done { returncode := 0, stdout := "hi\n", stderr := "" }
    removeFails := false }

/-- A run whose child exits on its own with a nonzero code and distinct
text on each stream. -/
def envDoneNonzero : Env :=
  { sysExecutable := "/usr/bin/python3"
    tmpPath := "/tmp/tmp9b21.py"
    resourceImportOk := true
    spawnError := none
    comm := CommOutcome.done { returncode := 3, stdout := "OUT", stderr := "ERR" }
    removeFails := false }

/-- A run that exceeds the wall-clock timeout; the child had already
written some text to both pipes when the deadline elapsed. -/
def envTimedOut : Env :=
  { sysExecutable := "/usr/bin/python3"
    tmpPath := "/tmp/tmp55c0.py"
    resourceImportOk := true
    spawnError := none
    comm := CommOutcome.timedOut "early out" "early err"
    removeFails := false }

/-- A run where `subprocess.Popen` raises because the interpreter
executable is missing. -/
def envSpawnFail : Env :=
  { sysExecutable := "/usr/bin/python3"
    tmpPath := "/tmp/tmp0dd1.py"
    resourceImportOk := true
    spawnError := some "FileNotFoundError"
    comm := CommOutcome.done { returncode := 0, stdout := "", stderr := "" }
    removeFails := false }

/-- A run on a platform where `import resource` fails. -/
def envNoResource : Env :=
  { sysExecutable := "/usr/bin/python3"
    tmpPath := "/tmp/tmp41e7.py"
    resourceImportOk := false
    spawnError := none
    comm := CommOutcome.done { returncode := 0, stdout := "hi\n", stderr := "" }
    removeFails := false }

/-! Claim theorems. -/

/-- C1 counterexample: with a concrete environment in which `Popen` raises
`FileNotFoundError`, `run_python_sandbox` does not return any dictionary —
the exception propagates to the caller, contradicting the claim that a
Failed-style result is returned without raising. -/
theorem spawn_failure_raises_cex :
    (run_python_sandbox envSpawnFail "print(1)" 4).outcome =
      PyOutcome.raise "FileNotFoundError" ∧
    (run_python_sandbox envSpawnFail "print(1)" 4).outcome.isRet = false :=
  ⟨rfl, rfl⟩

/-- C1 (amended): if spawning the child fails, the exception propagates to
the caller — no Failed-style dictionary is returned; there is no retry
(exactly one spawn attempt), and deletion of the temporary file is still
attempted before the exception propagates. -/
theorem spawn_failure_propagates (env : Env) (code : String) (t : Nat)
    (err : String) (h : env.spawnError = some err) :
    (run_python_sandbox env code t).outcome = PyOutcome.raise err ∧
    (run_python_sandbox env code t).spawnAttempts = 1 ∧
    (run_python_sandbox env code t).removeAttempted = true := by
  simp [run_python_sandbox, h]

/-- Witness for `spawn_failure_propagates` at a concrete environment. -/
theorem spawn_failure_propagates_witness :
    (run_python_sandbox envSpawnFail "print(1)" 4).outcome =
      PyOutcome.raise "FileNotFoundError" ∧
    (run_python_sandbox envSpawnFail "print(1)" 4).spawnAttempts = 1 ∧
    (run_python_sandbox envSpawnFail "print(1)" 4).removeAttempted = true :=
  spawn_failure_propagates envSpawnFail "print(1)" 4 "FileNotFoundError" rfl

/-- C2 counterexample: on a concrete timed-out run the code sends
`proc.kill()` but performs no wait afterwards, so the call returns without
the child process being confirmed terminated — contradicting the claim
that the call does not return before the child has actually terminated. -/
theorem timeout_no_wait_cex :
    (run_python_sandbox envTimedOut "while True: pass" 1).killSent = true ∧
    (run_python_sandbox envTimedOut "while True: pass" 1).waitedAfterKill = false ∧
    (run_python_sandbox envTimedOut "while True: pass" 1).childConfirmedTerminated
      = false :=
  ⟨rfl, rfl, rfl⟩

/-- C2 (amended): for every execution that exceeds the timeout,
`run_python_sandbox` sends a forceful kill to the child, but returns
without performing any wait after the kill, so the child is not confirmed
terminated (and is left unreaped) when the call returns. -/
theorem timeout_kill_without_wait (env : Env) (code : String) (t : Nat)
    (bufOut bufErr : String) (hs : env.spawnError = none)
    (hc : env.comm = CommOutcome.timedOut bufOut bufErr) :
    (run_python_sandbox env code t).killSent = true ∧
    (run_python_sandbox env code t).waitedAfterKill = false ∧
    (run_python_sandbox env code t).childConfirmedTerminated = false := by
  simp [run_python_sandbox, hs, hc, SandboxRun.childConfirmedTerminated]

/-- Witness for `timeout_kill_without_wait` at a concrete environment. -/
theorem timeout_kill_without_wait_witness :
    (run_python_sandbox envTimedOut "while True: pass" 1).killSent = true ∧
    (run_python_sandbox envTimedOut "while True: pass" 1).waitedAfterKill = false ∧
    (run_python_sandbox envTimedOut "while True: pass" 1).childConfirmedTerminated
      = false :=
  timeout_kill_without_wait envTimedOut "while True: pass" 1
    "early out" "early err" rfl rfl

/-- C3: on every exit path (normal completion, timeout, spawn failure) the
`finally` block attempts `os.remove(tmp_path)`; the file remains only when
that attempt itself fails (best effort), and a failed deletion never
changes the outcome delivered to the caller. -/
theorem tmpfile_released_every_path (env : Env) (code : String) (t : Nat) :
    (run_python_sandbox env code t).removeAttempted = true ∧
    (run_python_sandbox env code t).tmpFileExistsAfter = env.removeFails ∧
    (run_python_sandbox env code t).outcome =
      (run_python_sandbox { env with removeFails := true } code t).outcome := by
  cases hs : env.spawnError with
  | some err => simp [run_python_sandbox, hs]
  | none =>
    cases hc : env.comm with
    | done e => simp [run_python_sandbox, hs, hc]
    | timedOut a b => simp [run_python_sandbox, hs, hc]

/-- C4 counterexample: on a concrete platform without the `resource`
module the execution proceeds (one spawn attempt, preexec limits absent)
but the log trace is empty — the degraded mode is silent, contradicting
the claim that it is logged/observable. -/
theorem no_resource_silent_cex :
    (run_python_sandbox envNoResource "print(1)" 4).spawnAttempts = 1 ∧
    (run_python_sandbox envNoResource "print(1)" 4).popenAttempt.preexecLimits
      = none ∧
    (run_python_sandbox envNoResource "print(1)" 4).logs = [] :=
  ⟨rfl, rfl, rfl⟩

/-- C4 (amended): if `import resource` fails, `run_python_sandbox`
proceeds with the execution without CPU/memory limits rather than failing
— the run is otherwise identical to one with limits available — but it
does so silently: nothing is logged and nothing observable distinguishes
the degraded mode for the caller. -/
theorem no_resource_proceeds_silently (env : Env) (code : String) (t : Nat)
    (h : env.resourceImportOk = false) :
    (run_python_sandbox env code t).popenAttempt.preexecLimits = none ∧
    (run_python_sandbox env code t).spawnAttempts = 1 ∧
    (run_python_sandbox env code t).outcome =
      (run_python_sandbox { env with resourceImportOk := true } code t).outcome ∧
    (run_python_sandbox env code t).logs = [] := by
  cases hs : env.spawnError with
  | some err => simp [run_python_sandbox, hs, h]
  | none =>
    cases hc : env.comm with
    | done e => simp [run_python_sandbox, hs, hc, h]
    | timedOut a b => simp [run_python_sandbox, hs, hc, h]

/-- Witness for `no_resource_proceeds_silently` at a concrete
environment. -/
theorem no_resource_proceeds_silently_witness :
    (run_python_sandbox envNoResource "print(1)" 4).popenAttempt.preexecLimits
      = none ∧
    (run_python_sandbox envNoResource "print(1)" 4).spawnAttempts = 1 ∧
    (run_python_sandbox envNoResource "print(1)" 4).outcome =
      (run_python_sandbox { envNoResource with resourceImportOk := true }
        "print(1)" 4).outcome ∧
    (run_python_sandbox envNoResource "print(1)" 4).logs = [] :=
  no_resource_proceeds_silently envNoResource "print(1)" 4 rfl

/-- C5: every execution that exceeds the timeout returns the TimedOut
dictionary with `stdout` the empty string and `stderr` exactly
"Execution timed out", discarding whatever the child had written to its
pipes before being killed, and no exception escapes on this path. -/
theorem timeout_result_fields (env : Env) (code : String) (t : Nat)
    (bufOut bufErr : String) (hs : env.spawnError = none)
    (hc : env.comm = CommOutcome.timedOut bufOut bufErr) :
    (run_python_sandbox env code t).outcome =
      PyOutcome.ret
        [("error", PyValue.str "timeout"),
         ("stdout", PyValue.str ""),
         ("stderr", PyValue.str "Execution timed out")] := by
  simp [run_python_sandbox, hs, hc]

/-- Witness for `timeout_result_fields` at a concrete environment whose
child had produced output on both streams before the deadline. -/
theorem timeout_result_fields_witness :
    (run_python_sandbox envTimedOut "while True: pass" 1).outcome =
      PyOutcome.ret
        [("error", PyValue.str "timeout"),
         ("stdout", PyValue.str ""),
         ("stderr", PyValue.str "Execution timed out")] :=
  timeout_result_fields envTimedOut "while True: pass" 1
    "early out" "early err" rfl rfl

/-- C6: every child that exits on its own within the deadline yields the
Completed dictionary carrying its exit code and its stdout and stderr
exactly as written, captured on two separate pipes (stderr has its own
pipe, not merged into stdout); a nonzero exit code is carried in the same
dictionary, not turned into an error. -/
theorem completed_result_fields (env : Env) (code : String) (t : Nat)
    (e : ChildExit) (hs : env.spawnError = none)
    (hc : env.comm = CommOutcome.done e) :
    (run_python_sandbox env code t).outcome =
      PyOutcome.ret
        [("returncode", PyValue.int e.returncode),
         ("stdout", PyValue.str e.stdout),
         ("stderr", PyValue.str e.stderr)] ∧
    (run_python_sandbox env code t).popenAttempt.stdoutDest = StreamDest.pipe ∧
    (run_python_sandbox env code t).popenAttempt.stderrDest = StreamDest.pipe := by
  simp [run_python_sandbox, hs, hc]

/-- Witness for `completed_result_fields` at a concrete run with a nonzero
exit code and distinct text on the two streams. -/
theorem completed_result_fields_witness :
    (run_python_sandbox envDoneNonzero "import sys" 4).outcome =
      PyOutcome.ret
        [("returncode", PyValue.int 3),
         ("stdout", PyValue.str "OUT"),
         ("stderr", PyValue.str "ERR")] ∧
    (run_python_sandbox envDoneNonzero "import sys" 4).popenAttempt.stdoutDest
      = StreamDest.pipe ∧
    (run_python_sandbox envDoneNonzero "import sys" 4).popenAttempt.stderrDest
      = StreamDest.pipe :=
  completed_result_fields envDoneNonzero "import sys" 4
    { returncode := 3, stdout := "OUT", stderr := "ERR" } rfl rfl

/-- C7: when the resource-limiting primitive is available, the limit calls
are installed as `preexec_fn` and hence run inside the child between fork
and exec — before the user code starts — while the parent performs no
`setrlimit` call; the ceilings are the fixed defaults of 2 seconds of CPU
time and 200 MB of address space. -/
theorem limits_applied_in_child (env : Env) (code : String) (t : Nat)
    (h : env.resourceImportOk = true) :
    (run_python_sandbox env code t).popenAttempt.childLimitsBeforeExec
      = _limit ∧
    (run_python_sandbox env code t).parentLimitCalls = [] ∧
    _limit =
      [ { kind := RLimitKind.cpu, soft := 2, hard := 2 },
        { kind := RLimitKind.addressSpace,
          soft := 200 * 1024 * 1024, hard := 200 * 1024 * 1024 } ] := by
  cases hs : env.spawnError with
  | some err =>
    simp [run_python_sandbox, hs, h, PopenCall.childLimitsBeforeExec]
    rfl
  | none =>
    cases hc : env.comm with
    | done e =>
      simp [run_python_sandbox, hs, hc, h, PopenCall.childLimitsBeforeExec]
      rfl
    | timedOut a b =>
      simp [run_python_sandbox, hs, hc, h, PopenCall.childLimitsBeforeExec]
      rfl

/-- Witness for `limits_applied_in_child` at a concrete environment. -/
theorem limits_applied_in_child_witness :
    (run_python_sandbox envDone "print(1)" 4).popenAttempt.childLimitsBeforeExec
      = _limit ∧
    (run_python_sandbox envDone "print(1)" 4).parentLimitCalls = [] ∧
    _limit =
      [ { kind := RLimitKind.cpu, soft := 2, hard := 2 },
        { kind := RLimitKind.addressSpace,
          soft := 200 * 1024 * 1024, hard := 200 * 1024 * 1024 } ] :=
  limits_applied_in_child envDone "print(1)" 4 rfl

/-- C8: every call that returns (does not raise) yields exactly one of two
dictionary shapes: the completed shape with a "returncode" key and no
"error" key, or the timeout shape with "error" mapped to "timeout" and no
"returncode" key — never both keys and never neither. -/
theorem result_dict_two_shapes (env : Env) (code : String) (t : Nat)
    (d : PyDict)
    (h : (run_python_sandbox env code t).outcome = PyOutcome.ret d) :
    (PyDict.hasKey d "returncode" = true ∧ PyDict.hasKey d "error" = false) ∨
    (PyDict.lookup d "error" = some (PyValue.str "timeout") ∧
      PyDict.hasKey d "returncode" = false) := by
  cases hs : env.spawnError with
  | some err => simp [run_python_sandbox, hs] at h
  | none =>
    cases hc : env.comm with
    | done e =>
      simp [run_python_sandbox, hs, hc] at h
      subst h
      left
      exact ⟨rfl, rfl⟩
    | timedOut a b =>
      simp [run_python_sandbox, hs, hc] at h
      subst h
      right
      exact ⟨rfl, rfl⟩

/-- Witness for `result_dict_two_shapes` at a concrete completed run. -/
theorem result_dict_two_shapes_witness :
    (PyDict.hasKey
        [("returncode", PyValue.int 0),
         ("stdout", PyValue.str "hi\n"),
         ("stderr", PyValue.str "")] "returncode" = true ∧
      PyDict.hasKey
        [("returncode", PyValue.int 0),
         ("stdout", PyValue.str "hi\n"),
         ("stderr", PyValue.str "")] "error" = false) ∨
    (PyDict.lookup
        [("returncode", PyValue.int 0),
         ("stdout", PyValue.str "hi\n"),
         ("stderr", PyValue.str "")] "error" = some (PyValue.str "timeout") ∧
      PyDict.hasKey
        [("returncode", PyValue.int 0),
         ("stdout", PyValue.str "hi\n"),
         ("stderr", PyValue.str "")] "returncode" = false) :=
  result_dict_two_shapes envDone "print(1)" 4
    [("returncode", PyValue.int 0),
     ("stdout", PyValue.str "hi\n"),
     ("stderr", PyValue.str "")] rfl

/-- C9: every call spawns the child with the argument vector
`[sys.executable, "-I", tmp_path]` — the program is the resolved path of
the interpreter running the parent, not a name looked up on PATH. -/
theorem child_uses_parent_interpreter (env : Env) (code : String) (t : Nat) :
    (run_python_sandbox env code t).popenAttempt.cmd =
      [env.sysExecutable, "-I", env.tmpPath] := by
  cases hs : env.spawnError with
  | some err => simp [run_python_sandbox, hs]
  | none =>
    cases hc : env.comm with
    | done e => simp [run_python_sandbox, hs, hc]
    | timedOut a b => simp [run_python_sandbox, hs, hc]

/-- C10: every `setrlimit` call performed by `_limit` sets the soft limit
equal to the hard limit, and the two calls are exactly CPU at (2, 2) and
address space at (200 MB, 200 MB). -/
theorem limit_soft_equals_hard :
    _limit.all (fun c => c.soft == c.hard) = true ∧
    _limit =
      [ { kind := RLimitKind.cpu, soft := 2, hard := 2 },
        { kind := RLimitKind.addressSpace,
          soft := 200 * 1024 * 1024, hard := 200 * 1024 * 1024 } ] := by
  constructor
  · rfl
  · rfl

end SuperChatGPT
